import Mathlib

/-!
Verification development for the dataLayerMCP repository: a shallow
embedding of the request/response correlator, the instance-leadership
registry, the relay send primitive, the extension-side request handlers,
the GTM preview cursor, the per-tab hit ring buffers and the reconnect
backoff, with theorems settling the specification claims.
-/

namespace DataLayerMCP

/-! ## Wire messages and the per-call correlator

Embedded from the tool handlers in `server/src/index.ts` (getDataLayer,
getGa4Hits, getMetaPixelHits, getNewGTMPreviewEvents): each call registers
a `message`, a `close` and an `error` listener on the extension socket and
arms a timeout; the message handler parses inbound data, and resolves only
when the parsed type equals the expected response tag and the requestId
equals the id generated for this call.
-/

/-- A parsed inbound WebSocket message, as inspected by the per-call
message handler: its `type` tag, its `requestId`, the optional
`payload.error` field and the (JSON-serialized) payload. -/
structure WireMsg where
  type : String
  requestId : String
  payloadError : Option String
  payload : String
  deriving DecidableEq, Repr

/-- Raw inbound data: `JSON.parse` either yields a structured message or
throws (`malformed`), in which case the handler logs and returns. -/
inductive RawData where
  | parsed (msg : WireMsg)
  | malformed
  deriving DecidableEq, Repr

/-- The outcome a pending tool call resolves with. -/
inductive Outcome where
  | success (payload : String)
  | remoteError (e : String)
  | closed
  | errored
  | timedOut
  deriving DecidableEq, Repr

/-- The per-call `handleMessage` listener from `server/src/index.ts`:
parse the data; if the type equals the expected response tag and the
requestId matches this call, resolve (remote error if the payload carries
an `error` field, success otherwise); any other message is ignored and
leaves the call pending. -/
def handleMessage (expectedTag rid : String) (data : RawData) : Option Outcome :=
  match data with
  | .malformed => none
  | .parsed m =>
    if m.type = expectedTag ∧ m.requestId = rid then
      some (match m.payloadError with
        | some e => .remoteError e
        | none => .success m.payload)
    else
      none

/-- The outcome the handler resolves a matching response with: the
`payload.error` field, when present, is surfaced as a remote error,
otherwise the payload is the success result. -/
def respOutcome (m : WireMsg) : Outcome :=
  match m.payloadError with
  | some e => Outcome.remoteError e
  | none => Outcome.success m.payload

/-- Feeding a stream of inbound messages to one pending call: the call
keeps the first resolution produced by its message handler. -/
def runInbound (expectedTag rid : String) (datas : List RawData) : Option Outcome :=
  datas.foldl (fun acc d => acc <|> handleMessage expectedTag rid d) none

/-- The identity of one pending tool call: the response tag it awaits and
the freshly generated request id. -/
structure PendingCall where
  expectedTag : String
  requestId : String
  deriving DecidableEq, Repr

/-- Events that can fire while a call is pending: an inbound message, the
socket closing, a socket error, or the timer expiring. -/
inductive CallEvent where
  | message (d : RawData)
  | close
  | error
  | timeout
  deriving DecidableEq, Repr

/-- Registration state of one pending call: whether the three socket
listeners are registered, whether the timer is armed, and the promise
resolution (kept from the first `resolve`). -/
structure CallState where
  listenersOn : Bool
  timerOn : Bool
  resolved : Option Outcome
  deriving DecidableEq, Repr

/-- State right after `socket.on(...)` registration and `setTimeout`. -/
def initCallState : CallState :=
  { listenersOn := true, timerOn := true, resolved := none }

/-- `cleanup()` followed by `resolve(o)`: de-register the three listeners,
clear the timer, and resolve the promise (a promise keeps its first
value, so an already-resolved call is unchanged). -/
def resolveWith (st : CallState) (o : Outcome) : CallState :=
  { listenersOn := false, timerOn := false, resolved := st.resolved <|> some o }

/-- One event firing against a pending call, as in the four handlers of
each tool in `server/src/index.ts`: a handler runs only while its
listener (or timer) is still registered; the matching-message, close,
error and timeout handlers each call `cleanup()` then `resolve`; a
non-matching or malformed message changes nothing. -/
def stepCall (pc : PendingCall) (st : CallState) (e : CallEvent) : CallState :=
  match e with
  | .timeout =>
    if st.timerOn then resolveWith st .timedOut else st
  | .close =>
    if st.listenersOn then resolveWith st .closed else st
  | .error =>
    if st.listenersOn then resolveWith st .errored else st
  | .message d =>
    if st.listenersOn then
      match handleMessage pc.expectedTag pc.requestId d with
      | some o => resolveWith st o
      | none => st
    else
      st

/-- Processing a sequence of events against a pending call. -/
def runCall (pc : PendingCall) (st : CallState) (es : List CallEvent) : CallState :=
  es.foldl (stepCall pc) st

/-! ## Leadership / instance registry

Embedded from `server/src/utils/instance.ts`: an instance holds a fixed
`myInstanceId`/`myStartedAt`/`pid` and an in-memory `amActive` flag; the
shared lock file (in the OS temp directory) holds at most one JSON record. -/

/-- The JSON record in the shared lock file. -/
structure LockFile where
  instanceId : String
  pid : Nat
  startedAt : Nat
  deriving DecidableEq, Repr

/-- One server process instance: its fixed identity plus the mutable
in-memory `amActive` flag. -/
structure InstanceState where
  myInstanceId : String
  myStartedAt : Nat
  pid : Nat
  amActive : Bool
  deriving DecidableEq, Repr

/-- The shared lock location: `none` models a missing or unparsable lock
file (`readLockFile` returns null in both cases). -/
abbrev LockDisk := Option LockFile

/-- `initActiveInstance()`: unconditionally write this instance's identity
record to the lock and set the in-memory flag. (The file watcher it also
installs is a latency optimization; the fresh read in `amIActiveInstance`
is the source of truth.) Returns the updated instance state and disk. -/
def initActiveInstance (st : InstanceState) (_disk : LockDisk) :
    InstanceState × LockDisk :=
  ({ st with amActive := true },
   some { instanceId := st.myInstanceId, pid := st.pid, startedAt := st.myStartedAt })

/-- `amIActiveInstance()`: cheap cached check of the in-memory flag first,
then a fresh read of the lock file, requiring its `instanceId` to equal
this instance's own. -/
def amIActiveInstance (st : InstanceState) (disk : LockDisk) : Bool :=
  if !st.amActive then false
  else
    match disk with
    | some cur => decide (cur.instanceId = st.myInstanceId)
    | none => false

/-! ## Relay connection state and the send primitive

Embedded from `dist/server/src/connection/websocket.js` (the compiled
modular relay): `connectionState` holds the canonical socket; `wsSend`
checks leadership, then the socket, then transmits the payload augmented
with the sender identity fields. -/

/-- A WebSocket handle, identified by an id, with its `readyState`. -/
structure WSocket where
  sid : Nat
  readyState : Nat
  deriving DecidableEq, Repr

/-- `WebSocket.OPEN`. -/
def WS_OPEN : Nat := 1

/-- The server-side `connectionState` singleton. -/
structure ConnectionState where
  socket : Option WSocket
  isHealthy : Bool
  lastActivity : Nat
  reconnectAttempts : Nat
  deriving DecidableEq, Repr

/-- A message as transmitted by the server's `wsSend`: the caller's
payload spread together with the `_serverInstanceId` and
`_serverStartedAt` identity fields. -/
structure ServerWireMsg (α : Type) where
  payload : α
  serverInstanceId : String
  serverStartedAt : Nat
  deriving DecidableEq, Repr

/-- The result of one `wsSend` call: the returned boolean, the message
actually transmitted on the socket (if any), and whether
`connectionState.lastActivity` was refreshed. -/
structure SendResult (α : Type) where
  ok : Bool
  transmitted : Option (ServerWireMsg α)
  activityRefreshed : Bool
  deriving DecidableEq, Repr

/-- `wsSend(socket, payload)` from
`dist/server/src/connection/websocket.js`: drop (return false) if this
instance is no longer active; drop if the socket is absent or not OPEN;
otherwise tag the payload with the instance identity and transmit,
refreshing `lastActivity` and returning true; a transmit exception
(`sendThrows`) is caught, yielding false with no activity refresh. -/
def wsSend {α : Type} (inst : InstanceState) (disk : LockDisk) (socket : Option WSocket)
    (sendThrows : Bool) (payload : α) : SendResult α :=
  if !amIActiveInstance inst disk then
    { ok := false, transmitted := none, activityRefreshed := false }
  else
    match socket with
    | none => { ok := false, transmitted := none, activityRefreshed := false }
    | some s =>
      if s.readyState ≠ WS_OPEN then
        { ok := false, transmitted := none, activityRefreshed := false }
      else if sendThrows then
        { ok := false, transmitted := none, activityRefreshed := false }
      else
        { ok := true
          transmitted := some { payload := payload,
                                serverInstanceId := inst.myInstanceId,
                                serverStartedAt := inst.myStartedAt }
          activityRefreshed := true }

/-- The relay's `socket.on("close")` handler for a peer socket, from
`server/src/index.ts` (`wss.on("connection")` body): clear the stored
canonical reference only if the closing socket is still the stored one. -/
def onPeerClose (cs : ConnectionState) (closing : WSocket) : ConnectionState :=
  if cs.socket = some closing then
    { cs with socket := none, isHealthy := false }
  else
    cs

/-- The relay's `wss.on("connection")` handler state update: the new peer
socket unconditionally replaces the stored reference (last connection
wins), resetting health, activity and attempts. -/
def onPeerConnect (cs : ConnectionState) (s : WSocket) (now : Nat) : ConnectionState :=
  { cs with socket := some s, isHealthy := true, lastActivity := now,
            reconnectAttempts := 0 }

/-! ## Extension-side state, outbound tagging and request dispatch

Embedded from the extension service worker (`service_worker.js`) and
`extension/modules/utils/storage.js`. -/

/-- The service worker's record of the server identity it last
acknowledged, set by the `CONNECTION_ACK` arm of
`handleWebSocketMessage`. -/
structure ExtState where
  connectedServerId : Option String
  connectedServerStartedAt : Option Nat
  deriving DecidableEq, Repr

/-- The fields of a `CONNECTION_ACK` message the extension reads (absent
fields coerce to null via `msg.serverInstanceId || null`). -/
structure AckMsg where
  serverInstanceId : Option String
  serverStartedAt : Option Nat
  deriving DecidableEq, Repr

/-- The `CONNECTION_ACK` arm of the extension's `handleWebSocketMessage`:
adopt the acknowledged server identity. -/
def handleConnectionAck (_st : ExtState) (m : AckMsg) : ExtState :=
  { connectedServerId := m.serverInstanceId,
    connectedServerStartedAt := m.serverStartedAt }

/-- A message as transmitted by the extension: the business payload, plus
the optional `_targetServerInstanceId`/`_targetServerStartedAt` fields
(none when the send path does not add them). -/
structure ExtWireMsg (α : Type) where
  payload : α
  targetServerInstanceId : Option String
  targetServerStartedAt : Option Nat
  deriving DecidableEq, Repr

/-- `sendWebSocketMessage(message)` from `service_worker.js`: if the
socket exists and is OPEN, spread the message with the last-acknowledged
server identity as `_targetServerInstanceId`/`_targetServerStartedAt` and
send it (returning the transmitted message); otherwise send nothing. -/
def sendWebSocketMessage {α : Type} (st : ExtState) (ws : Option WSocket) (m : α) :
    Option (ExtWireMsg α) :=
  match ws with
  | some s =>
    if s.readyState = WS_OPEN then
      some { payload := m,
             targetServerInstanceId := st.connectedServerId,
             targetServerStartedAt := st.connectedServerStartedAt }
    else
      none
  | none => none

/-- A raw `ws.send(JSON.stringify(message))`, as used by
`handleGetNewGtmPreviewEventsRequest` and the keepalive ping: the message
goes out without the target-identity fields. -/
def rawWsSend {α : Type} (ws : Option WSocket) (m : α) : Option (ExtWireMsg α) :=
  match ws with
  | some s =>
    if s.readyState = WS_OPEN then
      some { payload := m, targetServerInstanceId := none, targetServerStartedAt := none }
    else
      none
  | none => none

/-- The request kinds dispatched by the extension's
`handleWebSocketMessage` switch. -/
inductive ReqKind where
  | dataLayer
  | schemaMarkup
  | metaTags
  | crawlability
  | gtmContainerIds
  | ga4Hits
  | metaPixelHits
  | newGtmPreviewEvents
  deriving DecidableEq, Repr

/-- The response `type` tag each handler uses. -/
def responseType : ReqKind → String
  | .dataLayer => "DATALAYER_RESPONSE"
  | .schemaMarkup => "SCHEMA_MARKUP_RESPONSE"
  | .metaTags => "META_TAGS_RESPONSE"
  | .crawlability => "CRAWLABILITY_AUDIT_RESPONSE"
  | .gtmContainerIds => "GTM_CONTAINER_IDS_RESPONSE"
  | .ga4Hits => "GA4_HITS_RESPONSE"
  | .metaPixelHits => "META_PIXEL_HITS_RESPONSE"
  | .newGtmPreviewEvents => "NEW_GTM_PREVIEW_EVENTS_RESPONSE"

/-- The per-tab hit maps: `tabId -> hits array`, absent until first use. -/
abbrev TabHits (α : Type) := Nat → Option (List α)

/-- `map.get(tabId) || []`: read a tab's hits, empty when none recorded. -/
def readTab {α : Type} (m : TabHits α) (t : Nat) : List α :=
  (m t).getD []

/-- `map.set(tabId, v)`. -/
def setTab {α : Type} (m : TabHits α) (t : Nat) (v : List α) : TabHits α :=
  fun t2 => if t2 = t then some v else m t2

/-- The environment an extension request handler runs against: last-ack
state, the client socket, the persisted Attachment Record
(`attachedTabId` in `chrome.storage.local`), tab liveness, the abstract
result of the injected extraction routine (an external collaborator:
`some e` is a structured error, `none` a success), the two per-tab hit
maps, and the first open Tag Assistant tab if any. -/
structure ExtEnv where
  ext : ExtState
  ws : Option WSocket
  attachedTabId : Option Nat
  tabExists : Nat → Bool
  scriptError : Option String
  ga4Hits : TabHits Nat
  metaPixelHits : TabHits Nat
  tagAssistantTab : Option Nat

/-- The response object a handler constructs (and then passes to its send
call): type tag, the original request id, the `payload.error` field if
any, and for the hit tools the hits list. -/
structure Response where
  rtype : String
  requestId : String
  payloadError : Option String
  payloadHits : Option (List Nat)
  deriving DecidableEq, Repr

/-- The extension request handlers from `service_worker.js`, by kind.
Each attached-tab handler first reads `attachedTabId` from storage and,
when absent, constructs its "No tab attached" error response tagged with
the request id. `handleGetNewGtmPreviewEventsRequest` instead queries for
an open Tag Assistant tab and never consults the Attachment Record; with
no such tab it constructs a "No Tag Assistant tab found" error. The
script-injecting handlers check tab liveness and then surface the
extraction routine's result; the hit handlers read the per-tab maps. -/
def handleRequest (env : ExtEnv) (k : ReqKind) (rid : String) : Response :=
  match k with
  | .dataLayer =>
    match env.attachedTabId with
    | none =>
      { rtype := "DATALAYER_RESPONSE", requestId := rid,
        payloadError := some "No tab attached. Ask the human to attach a tab by opening the extension and clicking the attach button.",
        payloadHits := none }
    | some tab =>
      if env.tabExists tab then
        { rtype := "DATALAYER_RESPONSE", requestId := rid,
          payloadError := env.scriptError, payloadHits := none }
      else
        { rtype := "DATALAYER_RESPONSE", requestId := rid,
          payloadError := some "Failed to execute script: Attached tab no longer exists",
          payloadHits := none }
  | .schemaMarkup =>
    match env.attachedTabId with
    | none =>
      { rtype := "SCHEMA_MARKUP_RESPONSE", requestId := rid,
        payloadError := some "No tab attached. Ask the human to attach a tab by opening the extension and clicking the attach button.",
        payloadHits := none }
    | some tab =>
      if env.tabExists tab then
        { rtype := "SCHEMA_MARKUP_RESPONSE", requestId := rid,
          payloadError := env.scriptError, payloadHits := none }
      else
        { rtype := "SCHEMA_MARKUP_RESPONSE", requestId := rid,
          payloadError := some "Failed to execute script: Attached tab no longer exists",
          payloadHits := none }
  | .metaTags =>
    match env.attachedTabId with
    | none =>
      { rtype := "META_TAGS_RESPONSE", requestId := rid,
        payloadError := some "No tab attached. Ask the human to attach a tab by opening the extension and clicking the attach button.",
        payloadHits := none }
    | some tab =>
      if env.tabExists tab then
        { rtype := "META_TAGS_RESPONSE", requestId := rid,
          payloadError := env.scriptError, payloadHits := none }
      else
        { rtype := "META_TAGS_RESPONSE", requestId := rid,
          payloadError := some "Failed to execute script: Attached tab no longer exists",
          payloadHits := none }
  | .crawlability =>
    match env.attachedTabId with
    | none =>
      { rtype := "CRAWLABILITY_AUDIT_RESPONSE", requestId := rid,
        payloadError := some "No tab attached. Attach a tab from the extension popup.",
        payloadHits := none }
    | some tab =>
      if env.tabExists tab then
        { rtype := "CRAWLABILITY_AUDIT_RESPONSE", requestId := rid,
          payloadError := env.scriptError, payloadHits := none }
      else
        { rtype := "CRAWLABILITY_AUDIT_RESPONSE", requestId := rid,
          payloadError := some "Attached tab not found or has no URL",
          payloadHits := none }
  | .gtmContainerIds =>
    match env.attachedTabId with
    | none =>
      { rtype := "GTM_CONTAINER_IDS_RESPONSE", requestId := rid,
        payloadError := some "No tab attached. Ask the human to attach a tab by opening the extension and clicking the attach button.",
        payloadHits := none }
    | some tab =>
      if env.tabExists tab then
        { rtype := "GTM_CONTAINER_IDS_RESPONSE", requestId := rid,
          payloadError := env.scriptError, payloadHits := none }
      else
        { rtype := "GTM_CONTAINER_IDS_RESPONSE", requestId := rid,
          payloadError := some "Failed to execute script: Attached tab no longer exists",
          payloadHits := none }
  | .ga4Hits =>
    match env.attachedTabId with
    | none =>
      { rtype := "GA4_HITS_RESPONSE", requestId := rid,
        payloadError := some "No tab attached. Please attach a tab to monitor GA4 hits.",
        payloadHits := none }
    | some tab =>
      { rtype := "GA4_HITS_RESPONSE", requestId := rid,
        payloadError := none, payloadHits := some (readTab env.ga4Hits tab) }
  | .metaPixelHits =>
    match env.attachedTabId with
    | none =>
      { rtype := "META_PIXEL_HITS_RESPONSE", requestId := rid,
        payloadError := some "No tab attached. Please attach a tab to monitor Meta Pixel hits.",
        payloadHits := none }
    | some tab =>
      { rtype := "META_PIXEL_HITS_RESPONSE", requestId := rid,
        payloadError := none, payloadHits := some (readTab env.metaPixelHits tab) }
  | .newGtmPreviewEvents =>
    match env.tagAssistantTab with
    | none =>
      { rtype := "NEW_GTM_PREVIEW_EVENTS_RESPONSE", requestId := rid,
        payloadError := some "No Tag Assistant tab found. Please open https://tagassistant.google.com in a browser tab.",
        payloadHits := none }
    | some _ =>
      { rtype := "NEW_GTM_PREVIEW_EVENTS_RESPONSE", requestId := rid,
        payloadError := env.scriptError, payloadHits := none }

/-- How each handler puts its response on the wire: every handler calls
`sendWebSocketMessage` (which tags the target identity), except
`handleGetNewGtmPreviewEventsRequest`, which sends raw
`ws.send(JSON.stringify(...))` throughout. -/
def transmitResponse (env : ExtEnv) (k : ReqKind) (resp : Response) :
    Option (ExtWireMsg Response) :=
  match k with
  | .newGtmPreviewEvents => rawWsSend env.ws resp
  | _ => sendWebSocketMessage env.ext env.ws resp

/-! ## GTM preview session cursor

Embedded from `handleGetNewGtmPreviewEventsRequest` in
`service_worker.js`: the persisted `lastGtmEventNumber` high-water mark
and the `gtmPreviewCb` session token. -/

/-- The persisted cursor: `lastGtmEventNumber` (defaults to 0 on first
read) and the preview session token `gtmPreviewCb` (`none` until first
adopted). -/
structure GtmCursor where
  lastGtmEventNumber : Nat
  gtmPreviewCb : Option String
  deriving DecidableEq, Repr

/-- The session-reset step: if the Tag Assistant URL carries a `cb` token
(`currentCb` non-null) and it differs from the stored one, reset the
counter to 0 and adopt the new token; otherwise leave the cursor alone. -/
def sessionReset (st : GtmCursor) (currentCb : Option String) : GtmCursor :=
  match currentCb with
  | some c =>
    if some c ≠ st.gtmPreviewCb then
      { lastGtmEventNumber := 0, gtmPreviewCb := some c }
    else
      st
  | none => st

/-- The injected extraction routine's `highestEventNumber` computation:
starting from the passed `lastEventNumber`, scan the event numbers on the
page and raise the mark on each event strictly newer than the cursor and
than the running maximum. -/
def extractHighest (lastEventNumber : Nat) (eventNumbers : List Nat) : Nat :=
  eventNumbers.foldl
    (fun highest e =>
      if e > lastEventNumber then
        (if e > highest then e else highest)
      else highest)
    lastEventNumber

/-- One complete `getNewGTMPreviewEvents` call's effect on the persisted
cursor: session reset first, then read the (possibly reset) counter, run
the extraction, and overwrite the stored counter only when the extraction
reports a strictly greater number. -/
def previewCall (st : GtmCursor) (currentCb : Option String)
    (eventNumbers : List Nat) : GtmCursor :=
  let st1 := sessionReset st currentCb
  let reported := extractHighest st1.lastGtmEventNumber eventNumbers
  if reported > st1.lastGtmEventNumber then
    { st1 with lastGtmEventNumber := reported }
  else
    st1

/-! ## Per-tab hit ring buffers

Embedded from `addHitToTab` / `addMetaPixelHitToTab` in
`service_worker.js` and the caps in `extension/modules/utils/storage.js`. -/

/-- `MAX_HITS_PER_PAGE` (GA4 family). -/
def MAX_HITS_PER_PAGE : Nat := 50

/-- `MAX_META_PIXEL_HITS_PER_PAGE` (Meta Pixel family). -/
def MAX_META_PIXEL_HITS_PER_PAGE : Nat := 50

/-- The shared buffer step: `hits.push(hit)` then
`hits.splice(0, hits.length - cap)` when over the cap — append, then
evict from the front down to the cap. -/
def pushWithCap {α : Type} (cap : Nat) (hits : List α) (h : α) : List α :=
  let hits2 := hits ++ [h]
  if hits2.length > cap then hits2.drop (hits2.length - cap) else hits2

/-- `addHitToTab(tabId, hit)`: initialize the tab's buffer on first use,
append, and evict from the front past `MAX_HITS_PER_PAGE`. -/
def addHitToTab {α : Type} (m : TabHits α) (tabId : Nat) (hit : α) : TabHits α :=
  setTab m tabId (pushWithCap MAX_HITS_PER_PAGE ((m tabId).getD []) hit)

/-- `addMetaPixelHitToTab(tabId, hit)`: same policy with
`MAX_META_PIXEL_HITS_PER_PAGE`. -/
def addMetaPixelHitToTab {α : Type} (m : TabHits α) (tabId : Nat) (hit : α) : TabHits α :=
  setTab m tabId (pushWithCap MAX_META_PIXEL_HITS_PER_PAGE ((m tabId).getD []) hit)

/-- The `chrome.tabs.onUpdated` listener body for a navigation starting to
load a new URL: both families' buffers for that tab are set to empty. -/
def clearHitsOnNavigate {α : Type} (ga4 metaPixel : TabHits α) (tabId : Nat) :
    TabHits α × TabHits α :=
  (setTab ga4 tabId [], setTab metaPixel tabId [])

/-! ## Extension reconnect backoff

Embedded from `extension/modules/connection.js`. -/

/-- `BASE_RECONNECT_DELAY` (ms). -/
def BASE_RECONNECT_DELAY : ℚ := 1000

/-- `MAX_RECONNECT_DELAY` (ms). -/
def MAX_RECONNECT_DELAY : ℚ := 30000

/-- `getReconnectDelay()`: exponential delay
`min(BASE * 2^attempts, MAX)` plus a jitter of `Math.random() * 1000`
(passed here as the parameter `jitter`, constrained in the theorems to
`0 ≤ jitter < 1000`). -/
def getReconnectDelay (reconnectAttempts : Nat) (jitter : ℚ) : ℚ :=
  min (BASE_RECONNECT_DELAY * 2 ^ reconnectAttempts) MAX_RECONNECT_DELAY + jitter

/-! ## Theorems -/

/-- A first-some fold over `<|>` produces a value only from the
accumulator or from one of the list elements. -/
theorem foldl_orElse_eq_some {α β : Type} (f : α → Option β) :
    ∀ (l : List α) (acc : Option β) (out : β),
      l.foldl (fun a d => a <|> f d) acc = some out →
      acc = some out ∨ ∃ d ∈ l, f d = some out := by
  intro l
  induction l with
  | nil => intro acc out h; exact Or.inl h
  | cons d l ih =>
    intro acc out h
    rcases ih (acc <|> f d) out h with h1 | h2
    · rcases hacc : acc with _ | v
      · rw [hacc] at h1
        simp only [Option.none_orElse] at h1
        exact Or.inr ⟨d, List.mem_cons_self d l, h1⟩
      · rw [hacc] at h1
        simp only [Option.some_orElse] at h1
        exact Or.inl h1
    · obtain ⟨d2, hd2, hf⟩ := h2
      exact Or.inr ⟨d2, List.mem_cons_of_mem d hd2, hf⟩

/-- `handleMessage` on a parsed message is the guarded resolution. -/
theorem handleMessage_parsed (tag rid : String) (m : WireMsg) :
    handleMessage tag rid (.parsed m) =
      if m.type = tag ∧ m.requestId = rid then some (respOutcome m) else none := by
  unfold handleMessage respOutcome
  rfl

/-- Inversion for `handleMessage`: a resolution arises exactly from a
parsed message with the expected tag and the call's own request id. -/
theorem handleMessage_eq_some_iff (tag rid : String) (d : RawData) (o : Outcome) :
    handleMessage tag rid d = some o ↔
      ∃ m : WireMsg, d = RawData.parsed m ∧ m.type = tag ∧ m.requestId = rid ∧
        o = respOutcome m := by
  cases d with
  | malformed =>
    simp only [handleMessage]
    constructor
    · intro h; cases h
    · rintro ⟨m, hm, -, -, -⟩; cases hm
  | parsed m =>
    rw [handleMessage_parsed]
    by_cases hc : m.type = tag ∧ m.requestId = rid
    · rw [if_pos hc]
      constructor
      · intro h
        exact ⟨m, rfl, hc.1, hc.2, (Option.some_inj.mp h).symm⟩
      · rintro ⟨m2, hm2, -, -, ho⟩
        injection hm2 with h2
        subst h2
        rw [ho]
    · rw [if_neg hc]
      constructor
      · intro h; cases h
      · rintro ⟨m2, hm2, ht, hr, -⟩
        injection hm2 with h2
        subst h2
        exact absurd ⟨ht, hr⟩ hc

/-- **C1**: for every tool call, the Correlator resolves with a success or
remote-error outcome only from an inbound message whose type equals the
call's expected response tag and whose requestId equals the id generated
for that call; any other inbound data — different type, different
requestId, or unparsable — leaves the pending call unresolved, regardless
of the arrival order of concurrent responses. -/
theorem c1_correlation_matching (tag rid : String) (datas : List RawData) (out : Outcome) :
    (runInbound tag rid datas = some out →
      ∃ m : WireMsg, RawData.parsed m ∈ datas ∧ m.type = tag ∧ m.requestId = rid ∧
        out = respOutcome m) ∧
    (∀ d : RawData,
      (∀ m : WireMsg, d = RawData.parsed m → ¬(m.type = tag ∧ m.requestId = rid)) →
      handleMessage tag rid d = none) := by
  constructor
  · intro h
    have h2 : datas.foldl (fun a d => a <|> handleMessage tag rid d) none = some out := h
    rcases foldl_orElse_eq_some (handleMessage tag rid) datas none out h2 with h1 | ⟨d, hd, hf⟩
    · cases h1
    · obtain ⟨m, rfl, ht, hr, ho⟩ := (handleMessage_eq_some_iff tag rid d out).mp hf
      exact ⟨m, hd, ht, hr, ho⟩
  · intro d hnm
    cases hm : handleMessage tag rid d with
    | none => rfl
    | some o =>
      obtain ⟨m, rfl, ht, hr, -⟩ := (handleMessage_eq_some_iff tag rid d o).mp hm
      exact absurd ⟨ht, hr⟩ (hnm m rfl)

/-- Witness for C1 at a concrete input: among a malformed frame, a
response for a different call and the matching response, the call
resolves from the matching one only. -/
theorem c1_correlation_matching_witness :
    ∃ m : WireMsg,
      RawData.parsed m ∈
        [RawData.malformed,
         RawData.parsed ⟨"DATALAYER_RESPONSE", "r2", none, "p2"⟩,
         RawData.parsed ⟨"DATALAYER_RESPONSE", "r1", none, "p1"⟩] ∧
      m.type = "DATALAYER_RESPONSE" ∧ m.requestId = "r1" ∧
      Outcome.success "p1" = respOutcome m :=
  (c1_correlation_matching "DATALAYER_RESPONSE" "r1"
    [RawData.malformed,
     RawData.parsed ⟨"DATALAYER_RESPONSE", "r2", none, "p2"⟩,
     RawData.parsed ⟨"DATALAYER_RESPONSE", "r1", none, "p1"⟩]
    (Outcome.success "p1")).1 (by decide)

/-- A resolved promise keeps its value through any further event. -/
theorem stepCall_resolved_mono (pc : PendingCall) (st : CallState) (e : CallEvent)
    (o : Outcome) (h : st.resolved = some o) : (stepCall pc st e).resolved = some o := by
  cases e with
  | timeout =>
    by_cases ht : st.timerOn <;> simp [stepCall, ht, resolveWith, h]
  | close =>
    by_cases hl : st.listenersOn <;> simp [stepCall, hl, resolveWith, h]
  | error =>
    by_cases hl : st.listenersOn <;> simp [stepCall, hl, resolveWith, h]
  | message d =>
    by_cases hl : st.listenersOn
    · simp only [stepCall, if_pos hl]
      cases handleMessage pc.expectedTag pc.requestId d <;> simp [resolveWith, h]
    · simp [stepCall, hl, h]

/-- A resolved promise keeps its value through any further event run. -/
theorem runCall_resolved_mono (pc : PendingCall) (es : List CallEvent) (st : CallState)
    (o : Outcome) (h : st.resolved = some o) : (runCall pc st es).resolved = some o := by
  induction es generalizing st with
  | nil => exact h
  | cons e es ih => exact ih (stepCall pc st e) (stepCall_resolved_mono pc st e o h)

/-- The registration invariant is preserved by one event: the listeners
and the timer are registered exactly while the call is unresolved. -/
theorem stepCall_registration (pc : PendingCall) (st : CallState) (e : CallEvent)
    (h1 : st.listenersOn = st.resolved.isNone) (h2 : st.timerOn = st.resolved.isNone) :
    (stepCall pc st e).listenersOn = (stepCall pc st e).resolved.isNone ∧
    (stepCall pc st e).timerOn = (stepCall pc st e).resolved.isNone := by
  have hres : ∀ hb : st.timerOn = true, st.resolved = none := by
    intro hb
    have : st.resolved.isNone = true := by rw [← h2]; exact hb
    exact Option.isNone_iff_eq_none.mp this
  have hres2 : ∀ hb : st.listenersOn = true, st.resolved = none := by
    intro hb
    have : st.resolved.isNone = true := by rw [← h1]; exact hb
    exact Option.isNone_iff_eq_none.mp this
  cases e with
  | timeout =>
    by_cases ht : st.timerOn
    · simp [stepCall, ht, resolveWith, hres ht]
    · simp only [stepCall, if_neg ht]
      exact ⟨h1, h2⟩
  | close =>
    by_cases hl : st.listenersOn
    · simp [stepCall, hl, resolveWith, hres2 hl]
    · simp only [stepCall, if_neg hl]
      exact ⟨h1, h2⟩
  | error =>
    by_cases hl : st.listenersOn
    · simp [stepCall, hl, resolveWith, hres2 hl]
    · simp only [stepCall, if_neg hl]
      exact ⟨h1, h2⟩
  | message d =>
    by_cases hl : st.listenersOn
    · simp only [stepCall, if_pos hl]
      cases handleMessage pc.expectedTag pc.requestId d with
      | none => exact ⟨h1, h2⟩
      | some o => simp [resolveWith, hres2 hl]
    · simp only [stepCall, if_neg hl]
      exact ⟨h1, h2⟩

/-- The registration invariant holds along any event run. -/
theorem runCall_registration (pc : PendingCall) (es : List CallEvent) (st : CallState)
    (h1 : st.listenersOn = st.resolved.isNone) (h2 : st.timerOn = st.resolved.isNone) :
    (runCall pc st es).listenersOn = (runCall pc st es).resolved.isNone ∧
    (runCall pc st es).timerOn = (runCall pc st es).resolved.isNone := by
  induction es generalizing st with
  | nil => exact ⟨h1, h2⟩
  | cons e es ih =>
    have h := stepCall_registration pc st e h1 h2
    exact ih (stepCall pc st e) h.1 h.2

/-- **C2**: for every tool call, exactly one of the four race branches
(matching response, peer close, peer error, timeout) resolves the call:
once resolved, the three listeners are de-registered and the timer is
cleared, the resolution never changes under further events in any firing
order, and a run in which the armed timer finally fires is resolved. -/
theorem c2_single_resolution (pc : PendingCall) (es : List CallEvent) :
    (∀ o : Outcome, (runCall pc initCallState es).resolved = some o →
      (runCall pc initCallState es).listenersOn = false ∧
      (runCall pc initCallState es).timerOn = false ∧
      ∀ es2 : List CallEvent,
        (runCall pc (runCall pc initCallState es) es2).resolved = some o) ∧
    (runCall pc initCallState (es ++ [CallEvent.timeout])).resolved.isSome = true := by
  have hg := runCall_registration pc es initCallState rfl rfl
  constructor
  · intro o ho
    refine ⟨?_, ?_, fun es2 => runCall_resolved_mono pc es2 _ o ho⟩
    · rw [hg.1, ho]; rfl
    · rw [hg.2, ho]; rfl
  · have hstep : runCall pc initCallState (es ++ [CallEvent.timeout]) =
        stepCall pc (runCall pc initCallState es) CallEvent.timeout := by
      simp [runCall, List.foldl_append]
    rw [hstep]
    cases hr : (runCall pc initCallState es).resolved with
    | some o =>
      rw [stepCall_resolved_mono pc _ CallEvent.timeout o hr]
      rfl
    | none =>
      have ht : (runCall pc initCallState es).timerOn = true := by
        rw [hg.2, hr]; rfl
      simp [stepCall, ht, resolveWith, hr]

/-- Witness for C2 at a concrete input: a close firing first resolves the
call to the closed outcome, de-registers everything, and a later timeout
firing does not change the outcome. -/
theorem c2_single_resolution_witness :
    (runCall ⟨"DATALAYER_RESPONSE", "r1"⟩ initCallState [CallEvent.close]).listenersOn
      = false ∧
    (runCall ⟨"DATALAYER_RESPONSE", "r1"⟩
      (runCall ⟨"DATALAYER_RESPONSE", "r1"⟩ initCallState [CallEvent.close])
      [CallEvent.timeout]).resolved = some Outcome.closed ∧
    (runCall ⟨"DATALAYER_RESPONSE", "r1"⟩ initCallState
      ([CallEvent.close] ++ [CallEvent.timeout])).resolved.isSome = true := by
  have h := c2_single_resolution ⟨"DATALAYER_RESPONSE", "r1"⟩ [CallEvent.close]
  have h1 := h.1 Outcome.closed (by decide)
  exact ⟨h1.1, h1.2.2 [CallEvent.timeout], h.2⟩

/-- **C3**: `amIActiveInstance()` returns true iff the in-memory active
flag is set and a fresh read of the shared lock file yields a record
whose instanceId equals this process's instanceId; consequently, after
two distinct instances each call `initActiveInstance()` in either order,
exactly one of them — the last writer — observes true. -/
theorem c3_leadership (st : InstanceState) (disk : LockDisk) :
    (amIActiveInstance st disk = true ↔
      st.amActive = true ∧ ∃ cur : LockFile, disk = some cur ∧
        cur.instanceId = st.myInstanceId) ∧
    (∀ a b : InstanceState, ∀ disk0 : LockDisk, a.myInstanceId ≠ b.myInstanceId →
      amIActiveInstance (initActiveInstance b (initActiveInstance a disk0).2).1
          (initActiveInstance b (initActiveInstance a disk0).2).2 = true ∧
      amIActiveInstance (initActiveInstance a disk0).1
          (initActiveInstance b (initActiveInstance a disk0).2).2 = false) := by
  constructor
  · cases disk with
    | none =>
      by_cases h : st.amActive <;> simp [amIActiveInstance, h]
    | some cur =>
      by_cases h : st.amActive <;> simp [amIActiveInstance, h]
  · intro a b disk0 hab
    constructor
    · simp [initActiveInstance, amIActiveInstance]
    · simp [initActiveInstance, amIActiveInstance, Ne.symm hab]

/-- Witness for C3 at concrete instances: instance A claims, then
instance B claims; B observes active, A does not. -/
theorem c3_leadership_witness :
    amIActiveInstance
        (initActiveInstance ⟨"instance-b", 200, 22, false⟩
          (initActiveInstance ⟨"instance-a", 100, 11, false⟩ none).2).1
        (initActiveInstance ⟨"instance-b", 200, 22, false⟩
          (initActiveInstance ⟨"instance-a", 100, 11, false⟩ none).2).2 = true ∧
    amIActiveInstance (initActiveInstance ⟨"instance-a", 100, 11, false⟩ none).1
        (initActiveInstance ⟨"instance-b", 200, 22, false⟩
          (initActiveInstance ⟨"instance-a", 100, 11, false⟩ none).2).2 = false :=
  (c3_leadership ⟨"instance-a", 100, 11, false⟩ none).2
    ⟨"instance-a", 100, 11, false⟩ ⟨"instance-b", 200, 22, false⟩ none (by decide)

/-- **C4**: `wsSend` returns false without transmitting when the instance
is not active or the socket is absent or not OPEN; otherwise it transmits
the tagged payload, refreshes `lastActivity` and returns true; a transmit
exception yields false with nothing transmitted and no retry (the
function returns at once), and never propagates to the caller. -/
theorem c4_ws_send_contract {α : Type} (inst : InstanceState) (disk : LockDisk)
    (socket : Option WSocket) (s : WSocket) (sendThrows : Bool) (payload : α) :
    (amIActiveInstance inst disk = false →
      wsSend inst disk socket sendThrows payload =
        { ok := false, transmitted := none, activityRefreshed := false }) ∧
    (wsSend inst disk none sendThrows payload =
      { ok := false, transmitted := none, activityRefreshed := false }) ∧
    (s.readyState ≠ WS_OPEN →
      wsSend inst disk (some s) sendThrows payload =
        { ok := false, transmitted := none, activityRefreshed := false }) ∧
    (sendThrows = true →
      (wsSend inst disk socket sendThrows payload).ok = false ∧
      (wsSend inst disk socket sendThrows payload).transmitted = none ∧
      (wsSend inst disk socket sendThrows payload).activityRefreshed = false) ∧
    (amIActiveInstance inst disk = true → s.readyState = WS_OPEN → sendThrows = false →
      wsSend inst disk (some s) sendThrows payload =
        { ok := true,
          transmitted := some { payload := payload,
                                serverInstanceId := inst.myInstanceId,
                                serverStartedAt := inst.myStartedAt },
          activityRefreshed := true }) := by
  refine ⟨?_, ?_, ?_, ?_, ?_⟩
  · intro h
    cases socket with
    | none => simp [wsSend, h]
    | some s2 => simp [wsSend, h]
  · by_cases h : amIActiveInstance inst disk <;> simp [wsSend, h]
  · intro hs
    by_cases h : amIActiveInstance inst disk <;> simp [wsSend, h, hs]
  · intro hth
    subst hth
    by_cases h : amIActiveInstance inst disk
    · cases socket with
      | none => simp [wsSend, h]
      | some s2 =>
        by_cases hs : s2.readyState = WS_OPEN <;> simp [wsSend, h, hs]
    · cases socket with
      | none => simp [wsSend, h]
      | some s2 => simp [wsSend, h]
  · intro h hs hth
    simp [wsSend, h, hs, hth]

/-- Witness for C4 at concrete inputs: an active instance with an OPEN
socket transmits and returns true; a non-active instance is refused. -/
theorem c4_ws_send_contract_witness :
    wsSend ⟨"i1", 5, 9, true⟩ (some ⟨"i1", 9, 5⟩) (some ⟨3, 1⟩) false "payload" =
      { ok := true,
        transmitted := some { payload := "payload", serverInstanceId := "i1",
                              serverStartedAt := 5 },
        activityRefreshed := true } ∧
    wsSend ⟨"i1", 5, 9, true⟩ (some ⟨"i2", 9, 5⟩) (some ⟨3, 1⟩) false "payload" =
      { ok := false, transmitted := none, activityRefreshed := false } := by
  have h1 := (c4_ws_send_contract ⟨"i1", 5, 9, true⟩ (some ⟨"i1", 9, 5⟩)
    (some ⟨3, 1⟩) ⟨3, 1⟩ false "payload").2.2.2.2 (by decide) (by decide) rfl
  have h2 := (c4_ws_send_contract ⟨"i1", 5, 9, true⟩ (some ⟨"i2", 9, 5⟩)
    (some ⟨3, 1⟩) ⟨3, 1⟩ false "payload").1 (by decide)
  exact ⟨h1, h2⟩

/-- **C10**: the relay's close handler clears the stored canonical
connection reference only if the closing socket is still the stored one;
a close event from a superseded connection leaves the newer peer's
registration and connection state intact. -/
theorem c10_close_guard (cs : ConnectionState) (closing : WSocket) :
    (cs.socket = some closing →
      onPeerClose cs closing = { cs with socket := none, isHealthy := false }) ∧
    (cs.socket ≠ some closing → onPeerClose cs closing = cs) ∧
    (∀ s1 s2 : WSocket, ∀ now1 now2 : Nat, s1 ≠ s2 →
      onPeerClose (onPeerConnect (onPeerConnect cs s1 now1) s2 now2) s1 =
        onPeerConnect (onPeerConnect cs s1 now1) s2 now2) := by
  refine ⟨?_, ?_, ?_⟩
  · intro h
    simp [onPeerClose, h]
  · intro h
    simp [onPeerClose, h]
  · intro s1 s2 now1 now2 h12
    have hne : (onPeerConnect (onPeerConnect cs s1 now1) s2 now2).socket ≠ some s1 := by
      simp [onPeerConnect]
      exact fun he => h12 he.symm
    simp [onPeerClose, hne]

/-- Witness for C10 at concrete sockets: after socket 1 is superseded by
socket 2, a close event from socket 1 leaves socket 2 registered. -/
theorem c10_close_guard_witness :
    onPeerClose
        (onPeerConnect (onPeerConnect ⟨none, false, 0, 3⟩ ⟨1, 1⟩ 10) ⟨2, 1⟩ 20) ⟨1, 1⟩ =
      onPeerConnect (onPeerConnect ⟨none, false, 0, 3⟩ ⟨1, 1⟩ 10) ⟨2, 1⟩ 20 ∧
    onPeerClose ⟨some ⟨2, 1⟩, true, 20, 0⟩ ⟨2, 1⟩ =
      { socket := none, isHealthy := false, lastActivity := 20, reconnectAttempts := 0 } := by
  have h1 := (c10_close_guard ⟨none, false, 0, 3⟩ ⟨1, 1⟩).2.2 ⟨1, 1⟩ ⟨2, 1⟩ 10 20 (by decide)
  have h2 := (c10_close_guard ⟨some ⟨2, 1⟩, true, 20, 0⟩ ⟨2, 1⟩).1 rfl
  exact ⟨h1, h2⟩

/-- Counterexample for C5: the GTM-preview request handler does not read
the Attachment Record at all — with no record present (and no Tag
Assistant tab) it responds with a "No Tag Assistant tab found" error, not
a "no tab attached" one, and its behavior is unchanged by attaching a
tab. -/
theorem c5_preview_handler_counterexample :
    (handleRequest
        { ext := ⟨none, none⟩, ws := some ⟨0, 1⟩, attachedTabId := none,
          tabExists := fun _ => false, scriptError := none,
          ga4Hits := fun _ => none, metaPixelHits := fun _ => none,
          tagAssistantTab := none }
        ReqKind.newGtmPreviewEvents "r-5").payloadError =
      some "No Tag Assistant tab found. Please open https://tagassistant.google.com in a browser tab." ∧
    ("No tab attached".data.isPrefixOf
      "No Tag Assistant tab found. Please open https://tagassistant.google.com in a browser tab.".data) = false ∧
    handleRequest
        { ext := ⟨none, none⟩, ws := some ⟨0, 1⟩, attachedTabId := some 7,
          tabExists := fun _ => false, scriptError := none,
          ga4Hits := fun _ => none, metaPixelHits := fun _ => none,
          tagAssistantTab := none }
        ReqKind.newGtmPreviewEvents "r-5" =
      handleRequest
        { ext := ⟨none, none⟩, ws := some ⟨0, 1⟩, attachedTabId := none,
          tabExists := fun _ => false, scriptError := none,
          ga4Hits := fun _ => none, metaPixelHits := fun _ => none,
          tagAssistantTab := none }
        ReqKind.newGtmPreviewEvents "r-5" := by
  refine ⟨rfl, by decide, rfl⟩

/-- **C5** (amended): every extraction request handler except the
GTM-preview one first reads the Attachment Record, and with no record
present responds with a "No tab attached..." error payload tagged with
the request's id; the GTM-preview handler instead looks for an open Tag
Assistant tab and, finding none, responds with its own well-defined
error, also tagged with the request's id. -/
theorem c5_no_attachment_amended (env : ExtEnv) (rid : String) :
    (∀ k : ReqKind, k ≠ ReqKind.newGtmPreviewEvents → env.attachedTabId = none →
      (handleRequest env k rid).rtype = responseType k ∧
      (handleRequest env k rid).requestId = rid ∧
      ∃ e : String, (handleRequest env k rid).payloadError = some e ∧
        "No tab attached".data.isPrefixOf e.data = true) ∧
    (env.tagAssistantTab = none →
      (handleRequest env ReqKind.newGtmPreviewEvents rid).requestId = rid ∧
      (handleRequest env ReqKind.newGtmPreviewEvents rid).payloadError =
        some "No Tag Assistant tab found. Please open https://tagassistant.google.com in a browser tab.") := by
  constructor
  · intro k hk hnone
    cases k <;>
      first
        | exact absurd rfl hk
        | exact ⟨by simp [handleRequest, hnone, responseType],
                 by simp [handleRequest, hnone],
                 by simp only [handleRequest, hnone]; exact ⟨_, rfl, by decide⟩⟩
  · intro hta
    refine ⟨by simp [handleRequest, hta], by simp [handleRequest, hta]⟩

/-- Witness for C5 (amended) at a concrete input: the dataLayer handler
with no Attachment Record produces the tagged "No tab attached" error;
the preview handler with no Tag Assistant tab produces its own error. -/
theorem c5_no_attachment_amended_witness :
    ((handleRequest
        { ext := ⟨none, none⟩, ws := some ⟨0, 1⟩, attachedTabId := none,
          tabExists := fun _ => false, scriptError := none,
          ga4Hits := fun _ => none, metaPixelHits := fun _ => none,
          tagAssistantTab := none }
        ReqKind.dataLayer "r-5w").requestId = "r-5w" ∧
      ∃ e : String,
        (handleRequest
          { ext := ⟨none, none⟩, ws := some ⟨0, 1⟩, attachedTabId := none,
            tabExists := fun _ => false, scriptError := none,
            ga4Hits := fun _ => none, metaPixelHits := fun _ => none,
            tagAssistantTab := none }
          ReqKind.dataLayer "r-5w").payloadError = some e ∧
        "No tab attached".data.isPrefixOf e.data = true) ∧
    (handleRequest
        { ext := ⟨none, none⟩, ws := some ⟨0, 1⟩, attachedTabId := none,
          tabExists := fun _ => false, scriptError := none,
          ga4Hits := fun _ => none, metaPixelHits := fun _ => none,
          tagAssistantTab := none }
        ReqKind.newGtmPreviewEvents "r-5w").payloadError =
      some "No Tag Assistant tab found. Please open https://tagassistant.google.com in a browser tab." := by
  have h := c5_no_attachment_amended
    { ext := ⟨none, none⟩, ws := some ⟨0, 1⟩, attachedTabId := none,
      tabExists := fun _ => false, scriptError := none,
      ga4Hits := fun _ => none, metaPixelHits := fun _ => none,
      tagAssistantTab := none } "r-5w"
  have h1 := h.1 ReqKind.dataLayer (by intro hx; cases hx) rfl
  have h2 := h.2 rfl
  exact ⟨⟨h1.2.1, h1.2.2⟩, h2.2⟩

/-- The extraction routine's running maximum never drops below the cursor
value it starts from. -/
theorem le_extractHighest (last : Nat) (evs : List Nat) :
    last ≤ extractHighest last evs := by
  unfold extractHighest
  suffices h : ∀ (l : List Nat) (acc : Nat),
      acc ≤ l.foldl
        (fun highest e => if e > last then (if e > highest then e else highest)
          else highest) acc by
    exact h evs last
  intro l
  induction l with
  | nil => intro acc; exact Nat.le_refl acc
  | cons e l ih =>
    intro acc
    refine Nat.le_trans ?_ (ih _)
    by_cases h1 : e > last
    · by_cases h2 : e > acc
      · simp only [if_pos h1, if_pos h2]
        omega
      · simp only [if_pos h1, if_neg h2]
        exact Nat.le_refl acc
    · simp only [if_neg h1]
      exact Nat.le_refl acc

/-- `previewCall` unfolded against the post-reset cursor. -/
theorem previewCall_eq (st : GtmCursor) (cb : Option String) (evs : List Nat) :
    previewCall st cb evs =
      if extractHighest (sessionReset st cb).lastGtmEventNumber evs >
          (sessionReset st cb).lastGtmEventNumber then
        { lastGtmEventNumber :=
            extractHighest (sessionReset st cb).lastGtmEventNumber evs,
          gtmPreviewCb := (sessionReset st cb).gtmPreviewCb }
      else sessionReset st cb := by
  unfold previewCall
  dsimp only

/-- **C6**: the stored GTM-preview high-water mark never decreases across
calls while the session token is unchanged — it is overwritten only with
a value at least as large (strictly greater when it changes) — and a call
observing a session token different from the stored one resets the
counter to 0 and adopts the new token before events are filtered. -/
theorem c6_cursor_monotone (st : GtmCursor) (currentCb : Option String)
    (evs : List Nat) :
    ((currentCb = none ∨ currentCb = st.gtmPreviewCb) →
      (previewCall st currentCb evs).gtmPreviewCb = st.gtmPreviewCb ∧
      st.lastGtmEventNumber ≤ (previewCall st currentCb evs).lastGtmEventNumber) ∧
    ((previewCall st currentCb evs).lastGtmEventNumber =
        (sessionReset st currentCb).lastGtmEventNumber ∨
      (sessionReset st currentCb).lastGtmEventNumber <
        (previewCall st currentCb evs).lastGtmEventNumber) ∧
    (∀ c : String, currentCb = some c → some c ≠ st.gtmPreviewCb →
      sessionReset st currentCb = ⟨0, some c⟩ ∧
      previewCall st currentCb evs = previewCall ⟨0, some c⟩ none evs ∧
      (previewCall st currentCb evs).gtmPreviewCb = some c) := by
  refine ⟨?_, ?_, ?_⟩
  · intro hsame
    have hreset : sessionReset st currentCb = st := by
      rcases hsame with h | h
      · rw [h]; rfl
      · cases hcb : currentCb with
        | none => rfl
        | some c =>
          rw [hcb] at h
          simp [sessionReset, h.symm]
    rw [previewCall_eq, hreset]
    by_cases hgt : extractHighest st.lastGtmEventNumber evs > st.lastGtmEventNumber
    · rw [if_pos hgt]
      exact ⟨rfl, Nat.le_of_lt hgt⟩
    · rw [if_neg hgt]
      exact ⟨rfl, Nat.le_refl _⟩
  · rw [previewCall_eq]
    by_cases hgt : extractHighest (sessionReset st currentCb).lastGtmEventNumber evs >
        (sessionReset st currentCb).lastGtmEventNumber
    · rw [if_pos hgt]
      exact Or.inr hgt
    · rw [if_neg hgt]
      exact Or.inl rfl
  · intro c hc hne
    subst hc
    have hreset : sessionReset st (some c) = ⟨0, some c⟩ := by
      simp [sessionReset, hne]
    have hreset2 : sessionReset (⟨0, some c⟩ : GtmCursor) none = ⟨0, some c⟩ := rfl
    refine ⟨hreset, ?_, ?_⟩
    · rw [previewCall_eq, previewCall_eq, hreset, hreset2]
    · rw [previewCall_eq, hreset]
      by_cases hgt : extractHighest (0 : Nat) evs > 0
      · rw [if_pos hgt]
      · rw [if_neg hgt]

/-- Witness for C6 at concrete inputs: with a fixed token the counter
rises from 3 to 7 and never drops; a new token resets it first. -/
theorem c6_cursor_monotone_witness :
    ((previewCall ⟨3, some "cb1"⟩ (some "cb1") [7, 2]).gtmPreviewCb = some "cb1" ∧
      3 ≤ (previewCall ⟨3, some "cb1"⟩ (some "cb1") [7, 2]).lastGtmEventNumber) ∧
    (sessionReset ⟨3, some "cb1"⟩ (some "cb2") = ⟨0, some "cb2"⟩ ∧
      (previewCall ⟨3, some "cb1"⟩ (some "cb2") [7, 2]).gtmPreviewCb = some "cb2") := by
  have h1 := (c6_cursor_monotone ⟨3, some "cb1"⟩ (some "cb1") [7, 2]).1 (Or.inr rfl)
  have h2 := (c6_cursor_monotone ⟨3, some "cb1"⟩ (some "cb2") [7, 2]).2.2 "cb2" rfl
    (by decide)
  exact ⟨h1, h2.1, h2.2.2⟩

/-- Folding the capped push from an empty buffer keeps exactly the most
recent `cap` elements, in their original relative order. -/
theorem foldl_pushWithCap {α : Type} (cap : Nat) (hs : List α) :
    hs.foldl (pushWithCap cap) [] = hs.drop (hs.length - cap) := by
  induction hs using List.reverseRecOn with
  | nil => simp
  | append_singleton l h ih =>
    rw [List.foldl_append, List.foldl_cons, List.foldl_nil, ih]
    unfold pushWithCap
    dsimp only
    by_cases hlen : cap ≤ l.length
    · have e1 : l.drop (l.length - cap) ++ [h] = (l ++ [h]).drop (l.length - cap) :=
        (List.drop_append_of_le_length (Nat.sub_le l.length cap)).symm
      rw [e1]
      have e2 : ((l ++ [h]).drop (l.length - cap)).length = cap + 1 := by
        rw [List.length_drop, List.length_append]
        simp only [List.length_cons, List.length_nil]
        omega
      rw [if_pos (by rw [e2]; omega), e2]
      have e3 : cap + 1 - cap = 1 := by omega
      rw [e3, List.drop_drop 1 (l.length - cap) (l ++ [h])]
      congr 1
      rw [List.length_append]
      simp only [List.length_cons, List.length_nil]
      omega
    · have h0 : l.length - cap = 0 := by omega
      have h1 : (l ++ [h]).length - cap = 0 := by
        rw [List.length_append]
        simp only [List.length_cons, List.length_nil]
        omega
      rw [h0, List.drop_zero, h1, List.drop_zero]
      rw [if_neg]
      rw [List.length_append]
      simp only [List.length_cons, List.length_nil]
      omega

/-- The per-tab map fold agrees with the list-level buffer fold. -/
theorem foldl_addHitToTab {α : Type} (t : Nat) (hs : List α) :
    ∀ (m0 : TabHits α) (buf : List α), m0 t = some buf →
      (hs.foldl (fun m h => addHitToTab m t h) m0) t =
        some (hs.foldl (pushWithCap MAX_HITS_PER_PAGE) buf) := by
  induction hs with
  | nil =>
    intro m0 buf h0
    simpa using h0
  | cons h hs ih =>
    intro m0 buf h0
    have hstep : (addHitToTab m0 t h) t = some (pushWithCap MAX_HITS_PER_PAGE buf h) := by
      simp [addHitToTab, setTab, h0]
    exact ih _ _ hstep

/-- **C7**: for each per-tab hit buffer (cap 50): recording more than the
cap leaves exactly the cap most recent events, in original relative
order; clearing on navigation and then recording one event yields a
buffer of length 1 in both families; and reading a tab with no recorded
hits returns the empty sequence. -/
theorem c7_ring_buffer (t : Nat) (hs : List Nat) (g m : TabHits Nat) (h1 : Nat) :
    (MAX_HITS_PER_PAGE < hs.length →
      readTab (hs.foldl (fun m2 h2 => addHitToTab m2 t h2) (fun _ => none)) t =
        hs.drop (hs.length - MAX_HITS_PER_PAGE) ∧
      (readTab (hs.foldl (fun m2 h2 => addHitToTab m2 t h2) (fun _ => none)) t).length =
        MAX_HITS_PER_PAGE) ∧
    (readTab (addHitToTab (clearHitsOnNavigate g m t).1 t h1) t = [h1] ∧
     readTab (addMetaPixelHitToTab (clearHitsOnNavigate g m t).2 t h1) t = [h1]) ∧
    readTab (fun _ => none : TabHits Nat) t = [] := by
  refine ⟨?_, ⟨?_, ?_⟩, rfl⟩
  · intro hlen
    have hmain : readTab (hs.foldl (fun m2 h2 => addHitToTab m2 t h2) (fun _ => none)) t
        = hs.foldl (pushWithCap MAX_HITS_PER_PAGE) [] := by
      cases hs with
      | nil => rfl
      | cons h0 rest =>
        have hfirst : (addHitToTab (fun _ => none : TabHits Nat) t h0) t =
            some (pushWithCap MAX_HITS_PER_PAGE [] h0) := by
          simp [addHitToTab, setTab]
        have hrest := foldl_addHitToTab t rest (addHitToTab (fun _ => none) t h0) _ hfirst
        simp only [List.foldl_cons, readTab]
        rw [hrest]
        rfl
    rw [hmain, foldl_pushWithCap]
    refine ⟨rfl, ?_⟩
    rw [List.length_drop]
    omega
  · simp [clearHitsOnNavigate, addHitToTab, setTab, readTab, pushWithCap,
      MAX_HITS_PER_PAGE]
  · simp [clearHitsOnNavigate, addMetaPixelHitToTab, setTab, readTab, pushWithCap,
      MAX_META_PIXEL_HITS_PER_PAGE]

/-- Witness for C7 at a concrete input: recording 52 events into a fresh
tab retains exactly the most recent 50, in order. -/
theorem c7_ring_buffer_witness :
    readTab
        ((List.range 52).foldl (fun m2 h2 => addHitToTab m2 9 h2) (fun _ => none)) 9 =
      (List.range 52).drop 2 ∧
    (readTab
        ((List.range 52).foldl (fun m2 h2 => addHitToTab m2 9 h2) (fun _ => none)) 9).length =
      50 ∧
    readTab (fun _ => none : TabHits Nat) 9 = [] := by
  have h := c7_ring_buffer 9 (List.range 52) (fun _ => none) (fun _ => none) 0
  have h2 := h.1 (by simp [MAX_HITS_PER_PAGE])
  refine ⟨?_, ?_, h.2.2⟩
  · have := h2.1
    simpa [MAX_HITS_PER_PAGE] using this
  · simpa [MAX_HITS_PER_PAGE] using h2.2

/-- **C8**: while the exponential term is below the cap, the computed
reconnect delay lies within `[base * 2 ^ attempts, cap + 1000)` for any
jitter in `[0, 1000)`, and the delay schedule is monotonically
non-decreasing in the attempt count (for any jitters) until the cap is
reached. -/
theorem c8_backoff_bounds (a b : Nat) (ja jb : ℚ) :
    (0 ≤ ja → ja < 1000 → BASE_RECONNECT_DELAY * 2 ^ a ≤ MAX_RECONNECT_DELAY →
      BASE_RECONNECT_DELAY * 2 ^ a ≤ getReconnectDelay a ja ∧
      getReconnectDelay a ja ≤ MAX_RECONNECT_DELAY + 1000) ∧
    (0 ≤ ja → ja < 1000 → 0 ≤ jb → a < b →
      BASE_RECONNECT_DELAY * 2 ^ a ≤ MAX_RECONNECT_DELAY →
      getReconnectDelay a ja ≤ getReconnectDelay b jb) := by
  have h2a : (1:ℚ) ≤ 2 ^ a := by
    simpa using pow_le_pow_right₀ (by norm_num : (1:ℚ) ≤ 2) (Nat.zero_le a)
  constructor
  · intro hj0 hj1 hrange
    unfold getReconnectDelay BASE_RECONNECT_DELAY MAX_RECONNECT_DELAY at *
    rw [min_eq_left hrange]
    constructor
    · linarith
    · linarith
  · intro hj0 hj1 hjb hab hrange
    unfold getReconnectDelay BASE_RECONNECT_DELAY MAX_RECONNECT_DELAY at *
    rw [min_eq_left hrange]
    have hbge : a + 1 ≤ b := hab
    have hpow : (2:ℚ) ^ (a + 1) ≤ 2 ^ b := pow_le_pow_right₀ (by norm_num) hbge
    have hdouble : (1000:ℚ) * 2 ^ a + 1000 ≤ 1000 * 2 ^ (a + 1) := by
      rw [pow_succ]
      nlinarith
    have ha4 : a ≤ 4 := by
      by_contra hcon
      push_neg at hcon
      have h5 : (2:ℕ) ^ 5 ≤ 2 ^ a := Nat.pow_le_pow_right (by norm_num) hcon
      have hcast : ((2:ℕ) ^ a : ℚ) ≤ 30 := by
        push_cast
        linarith
      have : ((2:ℕ) ^ 5 : ℚ) ≤ ((2:ℕ) ^ a : ℚ) := by exact_mod_cast h5
      norm_num at this
      linarith
    have h16 : (2:ℚ) ^ a ≤ 16 := by
      have : (2:ℕ) ^ a ≤ 2 ^ 4 := Nat.pow_le_pow_right (by norm_num) ha4
      have hc : ((2:ℕ) ^ a : ℚ) ≤ ((2:ℕ) ^ 4 : ℚ) := by exact_mod_cast this
      push_cast at hc
      linarith
    have hkey : (1000:ℚ) * 2 ^ a + 1000 ≤ min (1000 * 2 ^ b) 30000 := by
      rcases le_or_lt ((1000:ℚ) * 2 ^ b) 30000 with hle | hgt
      · rw [min_eq_left hle]
        linarith
      · rw [min_eq_right (le_of_lt hgt)]
        linarith
    have hmin0 : (0:ℚ) ≤ min (1000 * 2 ^ b) 30000 := by
      have : (0:ℚ) < 2 ^ b := by positivity
      rcases le_total ((1000:ℚ) * 2 ^ b) 30000 with h | h
      · rw [min_eq_left h]; positivity
      · rw [min_eq_right h]; norm_num
    linarith [hkey]

/-- Witness for C8 at concrete inputs: at 3 attempts with jitter 500 the
delay is within bounds, and it does not exceed the 4-attempt delay with
jitter 0. -/
theorem c8_backoff_bounds_witness :
    (BASE_RECONNECT_DELAY * 2 ^ 3 ≤ getReconnectDelay 3 500 ∧
      getReconnectDelay 3 500 ≤ MAX_RECONNECT_DELAY + 1000) ∧
    getReconnectDelay 3 500 ≤ getReconnectDelay 4 0 := by
  have h := c8_backoff_bounds 3 4 500 0
  have hrange : BASE_RECONNECT_DELAY * 2 ^ 3 ≤ MAX_RECONNECT_DELAY := by
    unfold BASE_RECONNECT_DELAY MAX_RECONNECT_DELAY
    norm_num
  exact ⟨h.1 (by norm_num) (by norm_num) hrange,
         h.2 (by norm_num) (by norm_num) (by norm_num) (by norm_num) hrange⟩

/-- Counterexample for C9: not every message the extension transmits
carries the target-identity tags — the GTM-preview handler sends its
response raw, so even with an acknowledged server identity on record the
transmitted message has no `_targetServerInstanceId`. -/
theorem c9_untagged_preview_counterexample :
    transmitResponse
        { ext := ⟨some "srv-1", some 111⟩, ws := some ⟨0, 1⟩, attachedTabId := some 7,
          tabExists := fun _ => true, scriptError := none,
          ga4Hits := fun _ => none, metaPixelHits := fun _ => none,
          tagAssistantTab := some 9 }
        ReqKind.newGtmPreviewEvents
        (handleRequest
          { ext := ⟨some "srv-1", some 111⟩, ws := some ⟨0, 1⟩, attachedTabId := some 7,
            tabExists := fun _ => true, scriptError := none,
            ga4Hits := fun _ => none, metaPixelHits := fun _ => none,
            tagAssistantTab := some 9 }
          ReqKind.newGtmPreviewEvents "r-9") =
      some { payload := { rtype := "NEW_GTM_PREVIEW_EVENTS_RESPONSE", requestId := "r-9",
                          payloadError := none, payloadHits := none },
             targetServerInstanceId := none, targetServerStartedAt := none } ∧
    (⟨some "srv-1", some 111⟩ : ExtState).connectedServerId = some "srv-1" := by
  exact ⟨rfl, rfl⟩

/-- **C9** (amended): every message the active server transmits through
`wsSend` carries the sender identity fields; every extension message sent
through `sendWebSocketMessage` carries the server identity last adopted
from a `CONNECTION_ACK`; but the GTM-preview handler's responses (sent
raw) carry no target identity. -/
theorem c9_identity_tagging_amended {α : Type} (inst : InstanceState) (disk : LockDisk)
    (socket : Option WSocket) (sendThrows : Bool) (payload : α)
    (est : ExtState) (ws : Option WSocket) (x : α) (ack : AckMsg)
    (env : ExtEnv) (k : ReqKind) (resp : Response) :
    (∀ msg : ServerWireMsg α,
      (wsSend inst disk socket sendThrows payload).transmitted = some msg →
      msg.serverInstanceId = inst.myInstanceId ∧ msg.serverStartedAt = inst.myStartedAt) ∧
    (∀ msg : ExtWireMsg α, sendWebSocketMessage est ws x = some msg →
      msg.targetServerInstanceId = est.connectedServerId ∧
      msg.targetServerStartedAt = est.connectedServerStartedAt) ∧
    ((handleConnectionAck est ack).connectedServerId = ack.serverInstanceId ∧
     (handleConnectionAck est ack).connectedServerStartedAt = ack.serverStartedAt) ∧
    (k ≠ ReqKind.newGtmPreviewEvents →
      ∀ msg : ExtWireMsg Response, transmitResponse env k resp = some msg →
        msg.targetServerInstanceId = env.ext.connectedServerId ∧
        msg.targetServerStartedAt = env.ext.connectedServerStartedAt) ∧
    (∀ msg : ExtWireMsg Response,
      transmitResponse env ReqKind.newGtmPreviewEvents resp = some msg →
      msg.targetServerInstanceId = none ∧ msg.targetServerStartedAt = none) := by
  have hsendWS : ∀ (est2 : ExtState) (ws2 : Option WSocket) (y : Response)
      (msg : ExtWireMsg Response), sendWebSocketMessage est2 ws2 y = some msg →
      msg.targetServerInstanceId = est2.connectedServerId ∧
      msg.targetServerStartedAt = est2.connectedServerStartedAt := by
    intro est2 ws2 y msg hm
    unfold sendWebSocketMessage at hm
    cases ws2 with
    | none => cases hm
    | some s =>
      dsimp only at hm
      by_cases hs : s.readyState = WS_OPEN
      · rw [if_pos hs] at hm
        injection hm with h2
        subst h2
        exact ⟨rfl, rfl⟩
      · rw [if_neg hs] at hm
        cases hm
  refine ⟨?_, ?_, ⟨rfl, rfl⟩, ?_, ?_⟩
  · intro msg hm
    unfold wsSend at hm
    by_cases h : amIActiveInstance inst disk
    · simp only [h, Bool.not_true, Bool.false_eq_true, if_false] at hm
      cases socket with
      | none => cases hm
      | some s =>
        by_cases hs : s.readyState = WS_OPEN
        · simp only [hs, ne_eq, not_true_eq_false, if_false] at hm
          cases sendThrows with
          | true => cases hm
          | false =>
            simp only [Bool.false_eq_true, if_false] at hm
            injection hm with h2
            subst h2
            exact ⟨rfl, rfl⟩
        · simp only [ne_eq, hs, not_false_eq_true, if_true] at hm
          cases hm
    · simp only [Bool.not_eq_true] at h
      simp only [h, Bool.not_false, if_true] at hm
      cases hm
  · intro msg hm
    unfold sendWebSocketMessage at hm
    cases ws with
    | none => cases hm
    | some s =>
      dsimp only at hm
      by_cases hs : s.readyState = WS_OPEN
      · rw [if_pos hs] at hm
        injection hm with h2
        subst h2
        exact ⟨rfl, rfl⟩
      · rw [if_neg hs] at hm
        cases hm
  · intro hk msg hm
    cases k with
    | newGtmPreviewEvents => exact absurd rfl hk
    | dataLayer => exact hsendWS env.ext env.ws resp msg hm
    | schemaMarkup => exact hsendWS env.ext env.ws resp msg hm
    | metaTags => exact hsendWS env.ext env.ws resp msg hm
    | crawlability => exact hsendWS env.ext env.ws resp msg hm
    | gtmContainerIds => exact hsendWS env.ext env.ws resp msg hm
    | ga4Hits => exact hsendWS env.ext env.ws resp msg hm
    | metaPixelHits => exact hsendWS env.ext env.ws resp msg hm
  · intro msg hm
    unfold transmitResponse rawWsSend at hm
    cases henv : env.ws with
    | none =>
      rw [henv] at hm
      cases hm
    | some s =>
      rw [henv] at hm
      dsimp only at hm
      by_cases hs : s.readyState = WS_OPEN
      · rw [if_pos hs] at hm
        injection hm with h2
        subst h2
        exact ⟨rfl, rfl⟩
      · rw [if_neg hs] at hm
        cases hm

/-- Witness for C9 (amended) at concrete inputs: an active server send is
tagged with its identity; a dataLayer response goes out tagged with the
acknowledged server identity. -/
theorem c9_identity_tagging_amended_witness :
    ((⟨"payload", "srv-1", 5⟩ : ServerWireMsg String).serverInstanceId = "srv-1" ∧
      (⟨"payload", "srv-1", 5⟩ : ServerWireMsg String).serverStartedAt = 5) ∧
    ((⟨⟨"DATALAYER_RESPONSE", "r-9w", none, none⟩, some "srv-1", some 111⟩ :
        ExtWireMsg Response).targetServerInstanceId = some "srv-1" ∧
      (⟨⟨"DATALAYER_RESPONSE", "r-9w", none, none⟩, some "srv-1", some 111⟩ :
        ExtWireMsg Response).targetServerStartedAt = some 111) := by
  have h := c9_identity_tagging_amended (α := String)
    ⟨"srv-1", 5, 9, true⟩ (some ⟨"srv-1", 9, 5⟩) (some ⟨3, 1⟩) false "payload"
    ⟨some "srv-1", some 111⟩ (some ⟨3, 1⟩) "x" ⟨some "srv-1", some 111⟩
    { ext := ⟨some "srv-1", some 111⟩, ws := some ⟨3, 1⟩, attachedTabId := some 7,
      tabExists := fun _ => true, scriptError := none,
      ga4Hits := fun _ => none, metaPixelHits := fun _ => none,
      tagAssistantTab := none }
    ReqKind.dataLayer ⟨"DATALAYER_RESPONSE", "r-9w", none, none⟩
  have h1 := h.1 ⟨"payload", "srv-1", 5⟩ (by rfl)
  have h4 := h.2.2.2.1 (by intro hx; cases hx)
    ⟨⟨"DATALAYER_RESPONSE", "r-9w", none, none⟩, some "srv-1", some 111⟩ (by rfl)
  exact ⟨h1, h4⟩

end DataLayerMCP
